import Mathlib

/-!
Verification of the ai-commit-msg command-line tool against its
natural-language specification.  The Go sources are shallowly embedded:
pure string manipulation becomes functions on `String` / `List Char`,
the mutable `Config` struct becomes explicit state passing, and the
effectful pipeline of `main` becomes a function from its external
inputs (flags, oracles for interactive input, the git collaborator's
result) to an outcome value.
-/

namespace AICommitMsg

/-! Character and string helpers

ASCII-level models of the Go standard-library operations the sources
use (`strings.Index`, `strings.ToUpper`, byte-range digit scans).
Branch names, flags and keys in this program are ASCII, where Go's
and Lean's case conversions agree. -/

/-- Is `c` an ASCII decimal digit (Go: `c >= '0' && c <= '9'`)? -/
def isDigitChar (c : Char) : Bool :=
  48 ≤ c.toNat && c.toNat ≤ 57

/-- Is `c` an ASCII uppercase letter (regex class `[A-Z]`)? -/
def isUpperAZ (c : Char) : Bool :=
  65 ≤ c.toNat && c.toNat ≤ 90

/-- Longest digit run at the head of the list. -/
def takeDigits (l : List Char) : List Char :=
  l.takeWhile isDigitChar

/-- Models Go `strings.ToUpper` on ASCII input. -/
def goToUpper (s : String) : String :=
  ⟨s.data.map Char.toUpper⟩

/-- Models Go `strings.ToLower` on ASCII input. -/
def goToLower (s : String) : String :=
  ⟨s.data.map Char.toLower⟩

/-- First index at which `needle` occurs in `hay`, scanning left to
right; models Go `strings.Index` (which returns -1 when absent,
modelled as `none`). -/
def strFindIdx (needle : List Char) : List Char → Nat → Option Nat
  | [], i => if needle.isPrefixOf [] then some i else none
  | c :: cs, i =>
      if needle.isPrefixOf (c :: cs) then some i
      else strFindIdx needle cs (i + 1)

/-- Models Go `strings.Index hay needle` (on the char level). -/
def goIndex (hay needle : String) : Option Nat :=
  strFindIdx needle.data hay.data 0

/-! Jira-ID extraction, pkg/git/jira.go

`extractJiraIDFromBranchName` tries, in order, the regular expressions
`GTN-\d+`, `GTBUG-\d+`, `TOOLS-\d+`, `TASK-\d+` (one per entry of
`JiraPrefixes`, in list order) and finally the generic `[A-Z]+-\d+`,
returning the leftmost match of the first pattern that matches.
The regexes are case-sensitive, exactly as compiled by
`regexp.MustCompile`. -/

/-- The hard-coded `JiraPrefixes` list from pkg/git/jira.go. -/
def jiraKeyList : List String := ["GTN", "GTBUG", "TOOLS", "TASK"]

/-- Match of the pattern `key ++ "-" ++ \d+` anchored at the head of
`s`: the literal key and dash, then a non-empty greedy digit run. -/
def tryKeyNumAt (pat : List Char) (s : List Char) : Option (List Char) :=
  if pat.isPrefixOf s then
    let ds := takeDigits (s.drop pat.length)
    if ds.isEmpty then none else some (pat ++ ds)
  else none

/-- Leftmost match of `key ++ "-" ++ \d+` in a string (Go regexp
`FindStringSubmatch` semantics for a literal-prefix pattern). -/
def findKeyNum (pat : List Char) : List Char → Option (List Char)
  | [] => none
  | c :: cs =>
      match tryKeyNumAt pat (c :: cs) with
      | some r => some r
      | none => findKeyNum pat cs

/-- Match of `[A-Z]+-\d+` anchored at the head of `s`: a greedy
non-empty uppercase run, a dash, a greedy non-empty digit run.
(With a greedy `[A-Z]+`, a match at this position exists iff the
maximal uppercase run is followed by `-` and a digit, since any
shorter run is followed by another uppercase letter, not `-`.) -/
def tryGenericAt (s : List Char) : Option (List Char) :=
  let us := s.takeWhile isUpperAZ
  if us.isEmpty then none
  else
    match s.drop us.length with
    | '-' :: rest =>
        let ds := takeDigits rest
        if ds.isEmpty then none else some (us ++ '-' :: ds)
    | _ => none

/-- Leftmost match of the generic pattern `[A-Z]+-\d+`. -/
def findGeneric : List Char → Option (List Char)
  | [] => none
  | c :: cs =>
      match tryGenericAt (c :: cs) with
      | some r => some r
      | none => findGeneric cs

/-- First pattern in `patterns` (known keys, then the generic one)
that matches anywhere in the branch name; models the `for _, pattern
:= range patterns` loop of `extractJiraIDFromBranchName`. -/
def firstPatternMatch (branch : List Char) : List String → Option (List Char)
  | [] => findGeneric branch
  | k :: ks =>
      match findKeyNum (k.data ++ ['-']) branch with
      | some r => some r
      | none => firstPatternMatch branch ks

/-- pkg/git/jira.go `extractJiraIDFromBranchName`. -/
def extractJiraIDFromBranchName (branchName : String) : String :=
  match firstPatternMatch branchName.data jiraKeyList with
  | some r => ⟨r⟩
  | none => ""

/-! Jira-ID extraction, cmd/ai-commit-msg/main.go `getBranchInfo`

The main pipeline's own extraction: `strings.Index(strings.ToUpper
(branch), "GTBUG-")`, digits scanned in the original string, slice of
the original string; else the same for `"GTN-"`; no generic fallback.
Runs only when no Jira ID was supplied and a branch name is known. -/

/-- Slice `branch[start : start+klen+digits]` where `digits` is the
digit run right after the key; `none` when no digit follows (Go:
`end > start+klen` fails and `JiraID` is left unchanged). -/
def sliceKeyDigits (branch : List Char) (start klen : Nat) : Option (List Char) :=
  let ds := takeDigits (branch.drop (start + klen))
  if ds.isEmpty then none else some ((branch.drop start).take (klen + ds.length))

/-- The Jira-ID part of `getBranchInfo` (main.go lines 1149-1221). -/
def getBranchInfoJiraID (jiraID branch : String) : String :=
  if jiraID = "" ∧ branch ≠ "" then
    match goIndex (goToUpper branch) "GTBUG-" with
    | some idx => ((sliceKeyDigits branch.data idx 6).map fun r => (⟨r⟩ : String)).getD ""
    | none =>
        match goIndex (goToUpper branch) "GTN-" with
        | some idx => ((sliceKeyDigits branch.data idx 4).map fun r => (⟨r⟩ : String)).getD ""
        | none => ""
  else jiraID

/-! Configuration, pkg/config (snapshot with `ParseCommandLineArgs`)

`VerbosityLevel` is a Go `int` enum: Silent = 0 < Normal < Verbose <
MoreVerbose < Debug.  `Config` carries the fields the cited snapshot
declares; the viper instance, key manager and mutex are runtime
plumbing with no bearing on the resolved values and are not part of
the value-level state. -/

def Silent : Nat := 0
def Normal : Nat := 1
def Verbose : Nat := 2
def MoreVerbose : Nat := 3
def Debug : Nat := 4

/-- The `Config` struct of pkg/config. -/
structure Config where
  verbosity : Nat
  contextLines : Int
  rememberFlags : Bool
  modelName : String
  systemPromptPath : String
  userPromptPath : String
  apiKey : String
  jiraID : String
  jiraDesc : String
  autoCommit : Bool
  storeKey : Bool
deriving DecidableEq, Repr

/-- Values the persisted TOML config file supplies (absent keys are
`none`). -/
structure FileConfig where
  verbosity : Option Nat
  contextLines : Option Int
  rememberFlags : Option Bool
  modelName : Option String
  systemPromptPath : Option String
  userPromptPath : Option String
deriving Repr

/-- Values the `AI_COMMIT_`-prefixed environment variables supply
(unset variables are `none`). -/
structure EnvConfig where
  verbosity : Option Nat
  contextLines : Option Int
  rememberFlags : Option Bool
  modelName : Option String
  systemPromptPath : Option String
  userPromptPath : Option String
deriving Repr

/-- Per-field layering performed by the viper library during
`LoadConfig`: an environment value beats the config-file value beats
the `setDefaults` default (spf13/viper's documented precedence, used
by `AutomaticEnv` + `ReadInConfig` + `SetDefault`). -/
def viperResolve {α : Type} (env fileVal : Option α) (dflt : α) : α :=
  match env with
  | some v => v
  | none =>
      match fileVal with
      | some v => v
      | none => dflt

/-- Model of `Config.LoadConfig` (pkg/config lines 90-135) combined with
`setDefaults` (lines 186-196): unmarshal the env/file/default layering
into the struct, then take the API key from `KeyManager.GetKey ""`
(environment or credential store), leaving it empty when that finds
nothing.  `resolvedKey` stands for that `GetKey` result. -/
def LoadConfig (env : EnvConfig) (file : FileConfig) (resolvedKey : String) : Config :=
  { verbosity := viperResolve env.verbosity file.verbosity Silent
    contextLines := viperResolve env.contextLines file.contextLines 3
    rememberFlags := viperResolve env.rememberFlags file.rememberFlags false
    modelName := viperResolve env.modelName file.modelName "claude-3-haiku-20240307"
    systemPromptPath := viperResolve env.systemPromptPath file.systemPromptPath ""
    userPromptPath := viperResolve env.userPromptPath file.userPromptPath ""
    apiKey := if resolvedKey ≠ "" then resolvedKey else ""
    jiraID := ""
    jiraDesc := ""
    autoCommit := false
    storeKey := false }

/-! Command-line parsing, `Config.ParseCommandLineArgs`
(pkg/config lines 391-520) -/

/-- The `knownSingleFlags` map. -/
def knownSingleFlag (s : String) : Bool :=
  s = "-v" || s = "--verbose" || s = "-vv" || s = "-vvv" ||
  s = "-a" || s = "--auto" || s = "-s" || s = "--store-key" ||
  s = "-h" || s = "--help" || s = "-cc" || s = "-ccc" || s = "--remember"

/-- The `knownParamFlags` map. -/
def knownParamFlag (s : String) : Bool :=
  s = "-k" || s = "--key" || s = "-j" || s = "--jira" ||
  s = "-d" || s = "--jira-desc" || s = "-c" || s = "--context" ||
  s = "-m" || s = "--model" || s = "--system-prompt" || s = "--user-prompt"

/-- The `switch arg` body for no-argument flags.  `-h`/`--help` are in
`knownSingleFlags` but have no case in the switch, so they change
nothing here. -/
def applySingleFlag (c : Config) (arg : String) : Config :=
  if arg = "-v" || arg = "--verbose" then { c with verbosity := Verbose }
  else if arg = "-vv" then { c with verbosity := MoreVerbose }
  else if arg = "-vvv" then { c with verbosity := Debug }
  else if arg = "-a" || arg = "--auto" then { c with autoCommit := true }
  else if arg = "-s" || arg = "--store-key" then { c with storeKey := true }
  else if arg = "-cc" then { c with contextLines := 10 }
  else if arg = "-ccc" then { c with contextLines := -1 }
  else if arg = "--remember" then { c with rememberFlags := true }
  else c

/-- Value of a decimal digit run. -/
def digitsToNat (l : List Char) : Nat :=
  l.foldl (fun a c => 10 * a + (c.toNat - 48)) 0

/-- Decimal value accepted by Go `fmt.Sscanf(s, "%d", &x)`: optional
leading whitespace, optional sign, a non-empty digit run (trailing
characters are not consumed and cause no error for `Sscanf`).  On
scan failure `Sscanf`'s error is discarded by the source and `x` keeps
its previous value, modelled by returning `none`.  (`Sscanf` treats a
newline in the input as an error, so only spaces and tabs are
skipped.) -/
def scanInt (s : String) : Option Int :=
  let t := s.data.dropWhile fun c => c = ' ' || c = '\t'
  match t with
  | '-' :: rest =>
      let ds := takeDigits rest
      if ds.isEmpty then none else some (-(digitsToNat ds : Int))
  | '+' :: rest =>
      let ds := takeDigits rest
      if ds.isEmpty then none else some (digitsToNat ds)
  | rest =>
      let ds := takeDigits rest
      if ds.isEmpty then none else some (digitsToNat ds)

/-- The `switch arg` body for parameterized flags, applied to the
following token `v`. -/
def applyParamFlag (c : Config) (arg v : String) : Config :=
  if arg = "-k" || arg = "--key" then { c with apiKey := v }
  else if arg = "-j" || arg = "--jira" then { c with jiraID := v }
  else if arg = "-d" || arg = "--jira-desc" then { c with jiraDesc := v }
  else if arg = "-c" || arg = "--context" then
    match scanInt v with
    | some n => { c with contextLines := n }
    | none => c
  else if arg = "-m" || arg = "--model" then { c with modelName := v }
  else if arg = "--system-prompt" then { c with systemPromptPath := v }
  else if arg = "--user-prompt" then { c with userPromptPath := v }
  else c

/-- Single-character flags recognised inside a combined cluster: the
two-character `knownSingleFlags` keys `-v`, `-a`, `-s`, `-h`. -/
def clusterCharKnownSingle (ch : Char) : Bool :=
  ch = 'v' || ch = 'a' || ch = 's' || ch = 'h'

/-- The per-character switch inside the combined-flags loop (`-h` is
recognised but has no case, so it changes nothing). -/
def clusterApplyChar (c : Config) (ch : Char) : Config :=
  if ch = 'v' then
    if c.verbosity < Verbose then { c with verbosity := Verbose } else c
  else if ch = 'a' then { c with autoCommit := true }
  else if ch = 's' then { c with storeKey := true }
  else c

/-- The `for _, char := range arg[1:]` loop: apply each recognised
no-argument flag as it is scanned; on the first character that is a
parameterized flag or unknown, stop with `validCombined = false`
(mutations already made are kept, as in the source). -/
def processCluster (c : Config) : List Char → Config × Bool
  | [] => (c, true)
  | ch :: rest =>
      if clusterCharKnownSingle ch then processCluster (clusterApplyChar c ch) rest
      else (c, false)

/-- Models Go `strings.HasPrefix(arg, "-")`. -/
def startsWithDash (arg : String) : Bool :=
  match arg.data with
  | '-' :: _ => true
  | _ => false

/-- Is `arg` shaped like a combined short-flag cluster:
`strings.HasPrefix(arg, "-") && !strings.HasPrefix(arg, "--") &&
len(arg) > 2`? -/
def isClusterToken (arg : String) : Bool :=
  match arg.data with
  | '-' :: '-' :: _ => false
  | '-' :: rest => rest.length + 1 > 2
  | _ => false

/-- The `for i := 0; i < len(args); i++` loop of
`ParseCommandLineArgs`, with the explicit index replaced by list
recursion (`i++` inside the parameterized-flag case consumes the value
token). -/
def parseLoop : Config → List String → List String → Config × List String
  | c, unknown, [] => (c, unknown)
  | c, unknown, arg :: rest =>
      if knownSingleFlag arg then
        parseLoop (applySingleFlag c arg) unknown rest
      else if knownParamFlag arg && !rest.isEmpty then
        match rest with
        | v :: rest2 => parseLoop (applyParamFlag c arg v) unknown rest2
        | [] => (c, unknown)   -- unreachable: guarded by !rest.isEmpty
      else if isClusterToken arg then
        match processCluster c (arg.data.drop 1) with
        | (c2, true) => parseLoop c2 unknown rest
        | (c2, false) => parseLoop c2 (unknown ++ [arg]) rest
      else if startsWithDash arg then
        parseLoop c (unknown ++ [arg]) rest
      else
        parseLoop c unknown rest

/-- The initial resets of `ParseCommandLineArgs`: runtime-only fields
are cleared before each parse. -/
def resetRuntime (c : Config) : Config :=
  { c with jiraID := "", jiraDesc := "", autoCommit := false, storeKey := false }

/-- Model of `Config.ParseCommandLineArgs`: reset runtime fields, run the loop,
return the collected unknown flags and the error (the sole return
statement is `return unknownFlags, nil`, so the error is always
`none`). -/
def ParseCommandLineArgs (c : Config) (args : List String) :
    Config × List String × Option String :=
  let r := parseLoop (resetRuntime c) [] args
  (r.1, r.2, none)

/-! The main pipeline after configuration, cmd/ai-commit-msg/main.go

The relevant slice of `main` (lines ~720-960): the store-key fast
path, the first-time interactive key setup, then the git stage with
the staged-files gate, prompt loading and the provider call.  External
effects become parameters: oracles for interactive input, the git
collaborator's result, and whether the prompt files load.  The model
stops at the point where a provider's `GenerateCommitMessage` (a
network call) would run. -/

/-- The `GitDiff` struct filled by `getGitDiff`. -/
structure GitDiff where
  stagedFiles : List String
  diff : String
  branch : String
  jiraID : String
  jiraDescription : String
deriving DecidableEq, Repr

/-- How a run of the pipeline ends: an `os.Exit code` before any
provider is contacted, or reaching the provider's network call. -/
inductive RunOutcome where
  | exited (code : Nat)
  | providerCalled
deriving DecidableEq, Repr

/-- The git stage of `main` (lines ~890-960): on a `getGitDiff` error
exit 1 unless store-key is enabled; the staged-files gate runs only
when store-key is NOT enabled (`if !cfg.IsStoreKeyEnabled() &&
(len(diffInfo.StagedFiles) == 0 || (len == 1 && [0] == ""))`); then
prompt loading (exit 1 on failure) and the provider call. -/
def gitStage (storeKey : Bool) (diffInfo : GitDiff) (gitErr promptsOk : Bool) :
    RunOutcome :=
  if gitErr && !storeKey then .exited 1
  else if !storeKey && (diffInfo.stagedFiles = [] ∨ diffInfo.stagedFiles = [""]) then
    .exited 1
  else if !promptsOk then .exited 1
  else .providerCalled

/-- Model of `main` after configuration and subcommand handling (lines
~720-960).  `apiKey` is `cfg.GetAPIKey()` after resolution;
`enteredKey` is what `readPasswordFromTerminal` would return in the
first-time setup; `keyFormatOk` is the regex validation result and
`confirmBadKey` the user's y/n answer to the format warning;
`storeAvailable`/`storeSucceeds` describe the credential store. -/
def mainAfterConfig (storeKey autoCommit : Bool) (apiKey : String)
    (storeAvailable storeSucceeds : Bool) (enteredKey : String)
    (keyFormatOk confirmBadKey : Bool)
    (diffInfo : GitDiff) (gitErr promptsOk : Bool) : RunOutcome :=
  if storeKey && apiKey ≠ "" then
    if !storeAvailable then .exited 1
    else if !storeSucceeds then .exited 1
    else if !autoCommit then .exited 0
    else gitStage storeKey diffInfo gitErr promptsOk
  else if apiKey = "" then
    if enteredKey.trim = "" then .exited 1
    else if !keyFormatOk && !confirmBadKey then .exited 1
    else gitStage storeKey diffInfo gitErr promptsOk
  else gitStage storeKey diffInfo gitErr promptsOk

/-! Provider lookup, pkg/ai (`NewProvider`, latest snapshot)

The `Provider` interface values are abstracted to their tag; the
lookup's behaviour is a total function of the name string. -/

/-- The three canonical providers. -/
inductive ProviderKind where
  | anthropic
  | openai
  | gemini
deriving DecidableEq, Repr

/-- The two error shapes `NewProvider` produces. -/
inductive ProviderLookupError where
  | emptyName
  | unknownProvider (name : String)
deriving DecidableEq, Repr

/-- Model of `NewProvider` (latest snapshot, with the empty-name check):
reject `""` first, then switch on `strings.ToLower(providerName)`
over the canonical names and their aliases. -/
def NewProvider (providerName : String) : Except ProviderLookupError ProviderKind :=
  if providerName = "" then .error .emptyName
  else
    let l := goToLower providerName
    if l = "anthropic" ∨ l = "claude" then .ok .anthropic
    else if l = "openai" ∨ l = "gpt" then .ok .openai
    else if l = "gemini" ∨ l = "google" then .ok .gemini
    else .error (.unknownProvider providerName)

/-! Key management, pkg/key

`platformGetFromCredentialStore` (key.go lines 106-117) dispatches on
the detected platform: macOS runs the `security` keychain query
(modelled by the `macKeychain` oracle for the external command's
result); the Windows case returns a hard-coded "not implemented"
error without consulting any store; every other platform reports no
credential store.  `GetProviderKey` (provider_keys snapshot, lines
24-54) layers command line over environment over store. -/

/-- The `Platform` values of pkg/key. -/
inductive Platform where
  | mac
  | windows
  | linux
  | unknownOS
deriving DecidableEq, Repr

/-- Name of a `Platform` as rendered in Go (`PlatformMac = "darwin"` etc.). -/
def platformName : Platform → String
  | .mac => "darwin"
  | .windows => "windows"
  | .linux => "linux"
  | .unknownOS => "unknown"

/-- Model of `KeyManager.CredentialStoreAvailable` (key.go lines 184-186). -/
def CredentialStoreAvailable (p : Platform) : Bool :=
  p = Platform.mac || p = Platform.windows

/-- Model of `KeyManager.platformGetFromCredentialStore` (key.go lines
106-117).  `macKeychain` is the outcome of the macOS `security
find-generic-password` call; note that the Windows branch is a
constant error and takes no store input at all. -/
def platformGetFromCredentialStore (p : Platform)
    (macKeychain : Except String String) : Except String String :=
  match p with
  | .mac => macKeychain
  | .windows => .error "Windows Credential Manager not implemented"
  | other => .error ("no credential store available for platform: " ++ platformName other)

/-- Model of `KeyManager.GetProviderKey` (provider_keys snapshot lines 24-54):
command-line key if non-empty, else the provider's environment
variable if non-empty, else the credential store; a store error is
returned as is, an empty store value becomes "no API key found". -/
def GetProviderKey (p : Platform) (provider cmdLineKey envKey : String)
    (macKeychain : Except String String) : Except String String :=
  if cmdLineKey ≠ "" then .ok cmdLineKey
  else if envKey ≠ "" then .ok envKey
  else
    match platformGetFromCredentialStore p macKeychain with
    | .error e => .error e
    | .ok k =>
        if k ≠ "" then .ok k
        else .error ("no API key found for provider: " ++ provider)

/-! The Gemini request URL and transport errors, pkg/ai (Gemini)

`GeminiProvider.GenerateCommitMessage` builds the request URL with the
API key as a query parameter (part_003 line 58) and returns
`client.Do`'s error verbatim (lines 151-154). -/

/-- The URL built at part_003 lines 57-59. -/
def geminiAPIURL (modelName apiKey : String) : String :=
  "https://generativelanguage.googleapis.com/v1/models/" ++ modelName ++
    ":generateContent?key=" ++ apiKey

/-- Modelled from the Go standard library (net/url `Error.Error`, the
error type `http.Client.Do` wraps every transport failure in): the
operation, the request URL in double quotes, and the underlying
error, which is exactly the text returned to the caller at part_003
lines 151-154 and printed by `main`. -/
def urlErrorText (op url innerErr : String) : String :=
  op ++ " \"" ++ url ++ "\": " ++ innerErr

/-- The error text the Gemini provider returns when the HTTP call
itself fails (`resp, err := client.Do(req); if err != nil { return
"", err }`). -/
def geminiTransportErrorText (modelName apiKey innerErr : String) : String :=
  urlErrorText "Post" (geminiAPIURL modelName apiKey) innerErr

/-! Request shaping for the three providers, pkg/ai

`GenerateCommitMessage` of each provider formats the user prompt with
`fmt.Sprintf` over the template (all bundled templates use only `%s`
verbs) and builds the vendor request.  Go map iteration order is
unspecified; the `fileSummaries` and `commitHistory` maps are modelled
as association lists iterated in list order, which does not affect any
claim about request shape.  `GenerationConfig.Temperature` is a float
and is omitted from the model. -/

/-- The `git.GitDiff` struct as consumed by the providers (enhanced
fields included). -/
structure GitDiffInfo where
  stagedFiles : List String
  diff : String
  branch : String
  jiraID : String
  jiraDescription : String
  systemPrompt : String
  userPrompt : String
  projectContext : String
  fileSummaries : List (String × String)
  commitHistory : List (String × List String)
  relatedFiles : List String

/-- Go `fmt.Sprintf` restricted to `%s` verbs: each `%s` consumes the
next argument; a `%s` with no argument left renders Go's
`%!s(MISSING)`; other characters pass through. -/
def sprintfS : List Char → List String → List Char
  | [], _ => []
  | '%' :: 's' :: rest, a :: as => a.data ++ sprintfS rest as
  | '%' :: 's' :: rest, [] => "%!s(MISSING)".data ++ sprintfS rest []
  | ch :: rest, as => ch :: sprintfS rest as

/-- Model of `fmt.Sprintf` over a `%s`-only template (arguments left over when
the template is exhausted would render Go's `%!(EXTRA ...)` suffix;
the sources always pass exactly the template's arity, so the plain
result is used). -/
def goSprintf (template : String) (args : List String) : String :=
  ⟨sprintfS template.data args⟩

/-- The `fileSummaries` accumulation loop (`"- %s: %s\n"` per entry). -/
def fileSummariesText (l : List (String × String)) : String :=
  String.join (l.map fun e => "- " ++ e.1 ++ ": " ++ e.2 ++ "\n")

/-- The `commitHistory` accumulation loop (`"File: %s\n"` then
`"  %s\n"` per commit). -/
def commitHistoryText (l : List (String × List String)) : String :=
  String.join (l.map fun e =>
    "File: " ++ e.1 ++ "\n" ++ String.join (e.2.map fun cm => "  " ++ cm ++ "\n"))

/-- The `relatedFiles` accumulation loop (`"- %s\n"` per entry). -/
def relatedFilesText (l : List String) : String :=
  String.join (l.map fun f => "- " ++ f ++ "\n")

/-- The enhanced-context test shared by all three providers:
`ProjectContext != "" || len(FileSummaries) > 0 || len(CommitHistory)
> 0 || len(RelatedFiles) > 0`. -/
def hasEnhancedContext (d : GitDiffInfo) : Bool :=
  d.projectContext ≠ "" || !d.fileSummaries.isEmpty ||
    !d.commitHistory.isEmpty || !d.relatedFiles.isEmpty

/-- The user-prompt formatting block shared verbatim by the
Anthropic, OpenAI and Gemini `GenerateCommitMessage` bodies: five
positional arguments, or nine when enhanced context is present. -/
def formatUserPrompt (d : GitDiffInfo) : String :=
  if hasEnhancedContext d then
    goSprintf d.userPrompt
      [d.branch, String.intercalate "\n" d.stagedFiles, d.diff, d.jiraID,
       d.jiraDescription, d.projectContext, fileSummariesText d.fileSummaries,
       commitHistoryText d.commitHistory, relatedFilesText d.relatedFiles]
  else
    goSprintf d.userPrompt
      [d.branch, String.intercalate "\n" d.stagedFiles, d.diff, d.jiraID,
       d.jiraDescription]

/-- One part of a Gemini content block. -/
structure GeminiPart where
  text : String
deriving DecidableEq, Repr

/-- A Gemini content block (`GeminiContent`). -/
structure GeminiContent where
  role : String
  parts : List GeminiPart
deriving DecidableEq, Repr

/-- The Gemini request body (temperature omitted: floating point). -/
structure GeminiRequest where
  contents : List GeminiContent
  maxOutputTokens : Nat
deriving DecidableEq, Repr

/-- The request built by `GeminiProvider.GenerateCommitMessage`
(part_003 lines 116-132): the system prompt and the formatted user
prompt joined by `fmt.Sprintf("%s\n\n%s", ...)` into one single
user-role content block. -/
def geminiBuildRequest (d : GitDiffInfo) : GeminiRequest :=
  { contents :=
      [{ role := "user"
         parts := [{ text := d.systemPrompt ++ "\n\n" ++ formatUserPrompt d }] }]
    maxOutputTokens := 1000 }

/-- A message of the Anthropic request. -/
structure AnthropicMessage where
  role : String
  content : String
deriving DecidableEq, Repr

/-- The Anthropic request body (`AnthropicRequest`). -/
structure AnthropicRequest where
  model : String
  maxTokens : Nat
  system : String
  messages : List AnthropicMessage
deriving DecidableEq, Repr

/-- The request built by `AnthropicProvider.GenerateCommitMessage`
(anthropic.go lines 102-109): the system prompt goes into the
dedicated `System` field, the user prompt into one user message. -/
def anthropicBuildRequest (modelName : String) (d : GitDiffInfo) : AnthropicRequest :=
  { model := modelName
    maxTokens := 1000
    system := d.systemPrompt
    messages := [{ role := "user", content := formatUserPrompt d }] }

/-- A message of the OpenAI request. -/
structure OpenAIMessage where
  role : String
  content : String
deriving DecidableEq, Repr

/-- The OpenAI request body (temperature omitted: floating point). -/
structure OpenAIRequest where
  model : String
  messages : List OpenAIMessage
  maxTokens : Nat
deriving DecidableEq, Repr

/-- The request built by `OpenAIProvider.GenerateCommitMessage`
(openai.go lines 104-112): the system prompt travels as a separate
system-role message. -/
def openaiBuildRequest (modelName : String) (d : GitDiffInfo) : OpenAIRequest :=
  { model := modelName
    messages :=
      [{ role := "system", content := d.systemPrompt },
       { role := "user", content := formatUserPrompt d }]
    maxTokens := 1000 }

/-! The credential store, pkg/key/keychain_darwin.go

The macOS keychain is modelled as a list of generic-password items in
creation order.  `security delete-generic-password` removes the first
item matching the service/account pair (its error is ignored by the
source); `security add-generic-password` appends a new item;
`security find-generic-password -w` returns the first match. -/

/-- One generic-password item. -/
structure CredEntry where
  service : String
  account : String
  value : String
deriving DecidableEq, Repr

/-- Does the item belong to the given (service, account) pair? -/
def entryMatches (service account : String) (e : CredEntry) : Bool :=
  e.service = service && e.account = account

/-- Model of `KeyManager.macStoreInKeychain` (keychain_darwin.go lines 39-53):
delete any existing entry for the pair (ignoring failure), then add
the new one. -/
def macStoreInKeychain (service account apiKey : String)
    (store : List CredEntry) : List CredEntry :=
  let afterDelete := store.eraseP (entryMatches service account)
  afterDelete ++ [{ service := service, account := account, value := apiKey }]

/-- Model of `KeyManager.macGetFromKeychain` (keychain_darwin.go lines 26-35):
the password of the first matching item, absent when there is none. -/
def macKeychainLookup (service account : String) (store : List CredEntry) :
    Option String :=
  (store.find? (entryMatches service account)).map (·.value)

/-- Number of items the store holds for a pair. -/
def entryCount (service account : String) (store : List CredEntry) : Nat :=
  (store.filter (entryMatches service account)).length

/-- Account component of `KeyManager.GetProviderKeyInfo`: the
provider-specific credential-store account name. -/
def providerAccount (provider : String) : String :=
  let l := goToLower provider
  if l = "openai" ∨ l = "gpt" then "openai-api-key"
  else if l = "gemini" ∨ l = "google" then "gemini-api-key"
  else "anthropic-api-key"

/-- Model of `KeyManager.StoreProviderKey` (provider_keys snapshot lines
57-61) on macOS: store under the fixed service name and the
provider's account. -/
def StoreProviderKey (provider apiKey : String) (store : List CredEntry) :
    List CredEntry :=
  macStoreInKeychain "ai-commit-msg" (providerAccount provider) apiKey store

/-! Shared values and helper lemmas -/

/-- The configuration produced when the config file is absent, no
`AI_COMMIT_` variables are set and no key is resolved: exactly
`setDefaults`. -/
def defaultsConfig : Config :=
  LoadConfig ⟨none, none, none, none, none, none⟩
    ⟨none, none, none, none, none, none⟩ ""

/-- A combined cluster whose characters are all recognised
no-argument flags applies them left to right and reports valid. -/
theorem processCluster_all_valid (l : List Char) (c : Config)
    (h : ∀ x ∈ l, clusterCharKnownSingle x = true) :
    processCluster c l = (l.foldl clusterApplyChar c, true) := by
  induction l generalizing c with
  | nil => rfl
  | cons ch rest ih =>
      have hch := h ch (by simp)
      simp only [processCluster, hch, if_true, List.foldl_cons]
      exact ih (clusterApplyChar c ch) fun x hx => h x (by simp [hx])

/-- A combined cluster stops at its first character that is not a
recognised no-argument flag, keeping the flags applied so far and
reporting invalid. -/
theorem processCluster_stops (pre : List Char) (ch : Char) (suf : List Char)
    (c : Config)
    (hpre : ∀ x ∈ pre, clusterCharKnownSingle x = true)
    (hch : clusterCharKnownSingle ch = false) :
    processCluster c (pre ++ ch :: suf) = (pre.foldl clusterApplyChar c, false) := by
  induction pre generalizing c with
  | nil => simp [processCluster, hch]
  | cons x rest ih =>
      have hx := hpre x (by simp)
      simp only [List.cons_append, processCluster, hx, if_true, List.foldl_cons]
      exact ih (clusterApplyChar c x) fun y hy => hpre y (by simp [hy])

/-- After erasing the first match from a list that holds at most one
match, no match is left. -/
theorem filter_eraseP_of_count_le_one (p : CredEntry → Bool) (l : List CredEntry)
    (h : (l.filter p).length ≤ 1) : (l.eraseP p).filter p = [] := by
  induction l with
  | nil => rfl
  | cons x xs ih =>
      by_cases hx : p x = true
      · have hxs : (xs.filter p).length = 0 := by
          rw [List.filter_cons_of_pos hx] at h
          simpa using h
        rw [List.eraseP_cons, hx, cond_true]
        exact List.length_eq_zero.mp hxs
      · have hx' : p x = false := by simpa using hx
        rw [List.filter_cons_of_neg (by simp [hx']) ] at h
        rw [List.eraseP_cons, hx', cond_false, List.filter_cons_of_neg (by simp [hx'])]
        exact ih h

/-- When filtering leaves exactly one element, `find?` returns it. -/
theorem find?_of_filter_singleton (p : CredEntry → Bool) (l : List CredEntry)
    (e : CredEntry) (h : l.filter p = [e]) : l.find? p = some e := by
  induction l with
  | nil => simp at h
  | cons x xs ih =>
      by_cases hx : p x = true
      · rw [List.filter_cons_of_pos hx] at h
        obtain ⟨rfl, -⟩ : x = e ∧ xs.filter p = [] := by
          constructor
          · exact (List.cons_eq_cons.mp h).1
          · exact (List.cons_eq_cons.mp h).2
        simp [List.find?_cons, hx]
      · have hx' : p x = false := by simpa using hx
        rw [List.filter_cons_of_neg (by simp [hx'])] at h
        simp [List.find?_cons, hx', ih h]

/-- The freshly added credential entry always matches its own pair. -/
theorem entryMatches_self (service account v : String) :
    entryMatches service account ⟨service, account, v⟩ = true := by
  simp [entryMatches]

/-! The claims -/

/-- Claim C1: configuration resolution takes each field from the
highest-precedence layer that set it, CLI flag over environment over
config file over default.  A CLI `--context 8` yields effective
contextLines 8 for every combination of environment and file values
(also amid other flags); with no flag supplied the value falls
through to `viperResolve`, which prefers environment over file over
the default 3. -/
theorem cli_context_flag_wins (env : EnvConfig) (file : FileConfig) (rk : String) :
    (ParseCommandLineArgs (LoadConfig env file rk) ["--context", "8"]).1.contextLines = 8 ∧
    (ParseCommandLineArgs (LoadConfig env file rk)
        ["-v", "--context", "8", "-a"]).1.contextLines = 8 ∧
    (ParseCommandLineArgs (LoadConfig env file rk) []).1.contextLines
      = viperResolve env.contextLines file.contextLines 3 ∧
    (∀ e fv, viperResolve (some e) fv (3 : Int) = e) ∧
    (∀ fv, viperResolve none (some fv) (3 : Int) = fv) ∧
    viperResolve (none : Option Int) none (3 : Int) = 3 :=
  ⟨rfl, rfl, rfl, fun _ _ => rfl, fun _ => rfl, rfl⟩

/-- Claim C10: `ParseCommandLineArgs` always returns a nil error, and
a parameterized numeric flag whose value does not parse as an integer
still consumes the value token, silently keeps the previous
contextLines, and reports nothing unknown (the consumed `-a` in the
second scenario shows the value token is skipped, not reinterpreted
as a flag). -/
theorem parse_never_errors_bad_context_ignored (c : Config) (args : List String) :
    (ParseCommandLineArgs c args).2.2 = none ∧
    ParseCommandLineArgs c ["-c", "foo"] = (resetRuntime c, [], none) ∧
    ParseCommandLineArgs c ["--context", "-a"] = (resetRuntime c, [], none) :=
  ⟨rfl, rfl, rfl⟩

/-- Claim C7 (counterexample): for the cluster token `-vac` (`v` and
`a` are no-argument flags, `c` is parameterized) the token is indeed
reported among the unknown flags, but the claimed all-or-nothing
behaviour fails: `-v` and `-a` have already taken effect on the
configuration (`autoCommit = true`, verbosity raised). -/
theorem cluster_all_or_nothing_counterexample :
    (ParseCommandLineArgs defaultsConfig ["-vac"]).2.1 = ["-vac"] ∧
    (ParseCommandLineArgs defaultsConfig ["-vac"]).1.autoCommit = true ∧
    (ParseCommandLineArgs defaultsConfig ["-vac"]).1.verbosity = Verbose := by
  refine ⟨rfl, rfl, rfl⟩

/-- Claim C7 (amended): scanning a combined short-flag cluster applies
each recognised no-argument flag as it is reached; at the first
character that is a parameterized or unknown flag, scanning stops,
the flags applied so far remain in effect, and the original token is
reported among the unknown flags; a cluster made only of recognised
no-argument flags applies all of them and reports nothing. -/
theorem cluster_partial_application (c : Config) (s : String)
    (hsingle : knownSingleFlag s = false) (hparam : knownParamFlag s = false)
    (hcluster : isClusterToken s = true) :
    ((∀ x ∈ s.data.drop 1, clusterCharKnownSingle x = true) →
      ParseCommandLineArgs c [s]
        = ((s.data.drop 1).foldl clusterApplyChar (resetRuntime c), [], none)) ∧
    (∀ pre ch suf, s.data.drop 1 = pre ++ ch :: suf →
      (∀ x ∈ pre, clusterCharKnownSingle x = true) →
      clusterCharKnownSingle ch = false →
      ParseCommandLineArgs c [s]
        = (pre.foldl clusterApplyChar (resetRuntime c), [s], none)) := by
  constructor
  · intro hall
    simp only [ParseCommandLineArgs, parseLoop, hsingle, hparam, hcluster,
      Bool.false_and, Bool.false_eq_true, if_false, if_true,
      processCluster_all_valid _ _ hall]
  · intro pre ch suf hsplit hpre hch
    simp only [ParseCommandLineArgs, parseLoop, hsingle, hparam, hcluster,
      Bool.false_and, Bool.false_eq_true, if_false, if_true, hsplit,
      processCluster_stops _ _ _ _ hpre hch, List.nil_append]

/-- Claim C7 witness: the amended statement at the concrete clusters
`-vas` (all valid: verbose, auto, store-key all applied, nothing
unknown) and `-vac` (stops at `c`: verbose and auto applied, token
reported). -/
theorem cluster_partial_application_witness :
    (ParseCommandLineArgs defaultsConfig ["-vas"]
      = (("-vas".data.drop 1).foldl clusterApplyChar (resetRuntime defaultsConfig),
         [], none)) ∧
    (ParseCommandLineArgs defaultsConfig ["-vac"]
      = (['v', 'a'].foldl clusterApplyChar (resetRuntime defaultsConfig),
         ["-vac"], none)) :=
  ⟨(cluster_partial_application defaultsConfig "-vas" (by decide) (by decide)
      (by decide)).1 (by decide),
   (cluster_partial_application defaultsConfig "-vac" (by decide) (by decide)
      (by decide)).2 ['v', 'a'] 'c' [] (by decide) (by decide) (by decide)⟩

/-- Claim C2 (counterexample): with `--store-key` and `--auto` both
set and a key supplied, the pipeline reaches the provider's network
call even though the collected staged-file list is empty — the
staged-files gate is skipped whenever store-key is enabled. -/
theorem empty_staged_reaches_provider_with_store_key :
    mainAfterConfig true true "sk-ant-key" true true "" true true
      ⟨[""], "", "main", "", ""⟩ false true = RunOutcome.providerCalled ∧
    mainAfterConfig true true "sk-ant-key" true true "" true true
      ⟨[], "", "main", "", ""⟩ false true = RunOutcome.providerCalled :=
  ⟨rfl, rfl⟩

/-- Claim C2 (amended): on every invocation on which the store-key
flag is NOT enabled, an empty collected staged-file list (or the
single-empty-string list a trimmed empty command output produces)
makes the pipeline halt with exit status 1 before any provider is
contacted; with store-key enabled the gate is skipped. -/
theorem empty_staged_halts_without_store_key (autoCommit : Bool)
    (apiKey enteredKey : String)
    (storeAvailable storeSucceeds keyFormatOk confirmBadKey : Bool)
    (d : GitDiff) (gitErr promptsOk : Bool)
    (h : d.stagedFiles = [] ∨ d.stagedFiles = [""]) :
    mainAfterConfig false autoCommit apiKey storeAvailable storeSucceeds enteredKey
      keyFormatOk confirmBadKey d gitErr promptsOk = RunOutcome.exited 1 := by
  unfold mainAfterConfig gitStage
  split_ifs <;> simp_all

/-- Claim C2 witness: the amended statement at a concrete invocation
(no store-key, a key present, empty staged list). -/
theorem empty_staged_halts_without_store_key_witness :
    mainAfterConfig false false "sk-ant-key" true true "" true true
      ⟨[], "", "", "", ""⟩ false true = RunOutcome.exited 1 :=
  empty_staged_halts_without_store_key false "sk-ant-key" "" true true true true
    ⟨[], "", "", "", ""⟩ false true (Or.inl rfl)

/-- Claim C3 (counterexample): the derivation is not the claimed
case-insensitive scan.  pkg/git's `extractJiraIDFromBranchName` uses
case-sensitive patterns, so the lower-case twin of the claim's first
scenario yields the empty string instead of an ID; and the main
pipeline's `getBranchInfo` has no known-prefix list beyond GTBUG/GTN
and no generic fallback, so `TOOLS-789_update_config` and a generic
`ABC-42` branch yield the empty string there. -/
theorem jira_extraction_counterexample :
    extractJiraIDFromBranchName "feature/gtbug-123-fix-leak" = "" ∧
    extractJiraIDFromBranchName "feature/GTBUG-123-fix-leak" = "GTBUG-123" ∧
    getBranchInfoJiraID "" "TOOLS-789_update_config" = "" ∧
    getBranchInfoJiraID "" "refactor/ABC-42-cleanup" = "" := by
  refine ⟨rfl, rfl, rfl, rfl⟩

/-- Claim C3 (amended): an explicitly supplied Jira ID is returned
unchanged regardless of the branch name; when none is supplied,
pkg/git's `extractJiraIDFromBranchName` scans case-sensitively for
each known project key (GTN, GTBUG, TOOLS, TASK, in that order)
followed by a dash and digits, falling back to a generic
uppercase-dash-digits pattern, and yields the empty string when
nothing matches; the main pipeline's `getBranchInfo` scans
case-insensitively but only for GTBUG- then GTN-.  All four scenario
examples of the claim hold on both paths. -/
theorem jira_extraction_amended :
    (∀ j b, j ≠ "" → getBranchInfoJiraID j b = j) ∧
    extractJiraIDFromBranchName "feature/GTBUG-123-fix-leak" = "GTBUG-123" ∧
    extractJiraIDFromBranchName "bugfix/GTN-456-x" = "GTN-456" ∧
    extractJiraIDFromBranchName "no-id-here" = "" ∧
    extractJiraIDFromBranchName "GTBUG-123/something" = "GTBUG-123" ∧
    extractJiraIDFromBranchName "TOOLS-789_update_config" = "TOOLS-789" ∧
    extractJiraIDFromBranchName "refactor/ABC-42-cleanup" = "ABC-42" ∧
    getBranchInfoJiraID "" "feature/GTBUG-123-fix-leak" = "GTBUG-123" ∧
    getBranchInfoJiraID "" "bugfix/GTN-456-x" = "GTN-456" ∧
    getBranchInfoJiraID "" "no-id-here" = "" ∧
    getBranchInfoJiraID "" "GTBUG-123/something" = "GTBUG-123" := by
  refine ⟨?_, rfl, rfl, rfl, rfl, rfl, rfl, rfl, rfl, rfl, rfl⟩
  intro j b hj
  simp [getBranchInfoJiraID, hj]

/-- Claim C3 witness: an explicitly supplied ID survives even when the
branch name carries a different extractable ID. -/
theorem jira_extraction_amended_witness :
    getBranchInfoJiraID "GTN-9" "feature/GTBUG-123-fix-leak" = "GTN-9" :=
  jira_extraction_amended.1 "GTN-9" "feature/GTBUG-123-fix-leak" (by decide)

/-- Claim C4: case-insensitive provider lookup maps anthropic/claude,
openai/gpt and gemini/google to the three canonical providers, every
other non-empty name to the generic unknown-provider error, and the
empty string to the distinct empty-name error. -/
theorem provider_lookup_classification (s : String) :
    (goToLower s = "anthropic" ∨ goToLower s = "claude" →
      NewProvider s = .ok .anthropic) ∧
    (goToLower s = "openai" ∨ goToLower s = "gpt" →
      NewProvider s = .ok .openai) ∧
    (goToLower s = "gemini" ∨ goToLower s = "google" →
      NewProvider s = .ok .gemini) ∧
    (s ≠ "" →
      goToLower s ∉
        (["anthropic", "claude", "openai", "gpt", "gemini", "google"] : List String) →
      NewProvider s = .error (.unknownProvider s)) ∧
    NewProvider "" = .error .emptyName := by
  refine ⟨?_, ?_, ?_, ?_, rfl⟩
  · rintro (h | h) <;>
      · have hs : ¬ s = "" := by rintro rfl; simp [goToLower] at h
        simp [NewProvider, hs, h]
  · rintro (h | h) <;>
      · have hs : ¬ s = "" := by rintro rfl; simp [goToLower] at h
        simp [NewProvider, hs, h]
  · rintro (h | h) <;>
      · have hs : ¬ s = "" := by rintro rfl; simp [goToLower] at h
        simp [NewProvider, hs, h]
  · intro hs hmem
    simp only [List.mem_cons, List.not_mem_nil, or_false, not_or] at hmem
    obtain ⟨h1, h2, h3, h4, h5, h6⟩ := hmem
    simp [NewProvider, hs, h1, h2, h3, h4, h5, h6]

/-- Claim C4 witness: the classification at the concrete names
`CLAUDE`, `GPT`, `Google`, `foo` and the empty string. -/
theorem provider_lookup_classification_witness :
    NewProvider "CLAUDE" = .ok .anthropic ∧
    NewProvider "GPT" = .ok .openai ∧
    NewProvider "Google" = .ok .gemini ∧
    NewProvider "foo" = .error (.unknownProvider "foo") :=
  ⟨(provider_lookup_classification "CLAUDE").1 (Or.inr (by decide)),
   (provider_lookup_classification "GPT").2.1 (Or.inr (by decide)),
   (provider_lookup_classification "Google").2.2.1 (Or.inr (by decide)),
   (provider_lookup_classification "foo").2.2.2.1 (by decide) (by decide)⟩

/-- Claim C5: credential resolution prefers a non-empty command-line
key, then a non-empty provider environment variable, then the
platform credential store; on non-macOS/non-Windows platforms the
query reports "no credential store available".  But on Windows the
store is NOT actually queried: `platformGetFromCredentialStore`
returns a hard-coded "not implemented" error no matter what the
store holds (`CredentialStoreAvailable` nevertheless reports true
there), so the last conjunct of the claim fails on the code. -/
theorem credential_resolution_windows_stub (provider cmdKey envKey : String)
    (macKeychain : Except String String) :
    (cmdKey ≠ "" → GetProviderKey .mac provider cmdKey envKey macKeychain = .ok cmdKey) ∧
    (cmdKey = "" → envKey ≠ "" →
      GetProviderKey .mac provider cmdKey envKey macKeychain = .ok envKey) ∧
    (cmdKey = "" → envKey = "" →
      GetProviderKey .mac provider cmdKey envKey macKeychain
        = match macKeychain with
          | .error e => .error e
          | .ok k => if k ≠ "" then .ok k
                     else .error ("no API key found for provider: " ++ provider)) ∧
    GetProviderKey .linux provider "" "" macKeychain
      = .error "no credential store available for platform: linux" ∧
    GetProviderKey .unknownOS provider "" "" macKeychain
      = .error "no credential store available for platform: unknown" ∧
    GetProviderKey .windows provider "" "" macKeychain
      = .error "Windows Credential Manager not implemented" ∧
    CredentialStoreAvailable .windows = true := by
  refine ⟨?_, ?_, ?_, rfl, rfl, rfl, rfl⟩
  · intro h; simp [GetProviderKey, h]
  · intro h1 h2; simp [GetProviderKey, h1, h2]
  · intro h1 h2; simp [GetProviderKey, h1, h2, platformGetFromCredentialStore]

/-- Claim C5 witness: the layering at concrete inputs, and the
Windows divergence — the store holds a key yet the query returns the
stub error. -/
theorem credential_resolution_windows_stub_witness :
    GetProviderKey .mac "openai" "cli-key" "env-key" (.ok "stored-key") = .ok "cli-key" ∧
    GetProviderKey .mac "openai" "" "env-key" (.ok "stored-key") = .ok "env-key" ∧
    GetProviderKey .mac "openai" "" "" (.ok "stored-key") = .ok "stored-key" ∧
    GetProviderKey .windows "openai" "" "" (.ok "stored-key")
      = .error "Windows Credential Manager not implemented" :=
  ⟨(credential_resolution_windows_stub "openai" "cli-key" "env-key" (.ok "stored-key")).1
      (by decide),
   (credential_resolution_windows_stub "openai" "" "env-key" (.ok "stored-key")).2.1
      rfl (by decide),
   (credential_resolution_windows_stub "openai" "" "" (.ok "stored-key")).2.2.1
      rfl rfl,
   (credential_resolution_windows_stub "openai" "" "" (.ok "stored-key")).2.2.2.2.2.1⟩

/-- Claim C6: the API key must never appear in error text — but the
Gemini provider builds its request URL with the key as a query
parameter, and a transport failure of `client.Do` is returned
verbatim as a `url.Error`, whose text quotes the full URL.  For every
model, key and underlying error, the key occurs verbatim inside the
returned error text, and two runs differing only in the key produce
different error texts. -/
theorem gemini_transport_error_leaks_key (modelName apiKey innerErr : String) :
    (∃ pre post : List Char,
      (geminiTransportErrorText modelName apiKey innerErr).data
        = pre ++ apiKey.data ++ post) ∧
    geminiTransportErrorText "gemini-1.5-pro" "SECRET-KEY-AAAA" "connection refused"
      ≠ geminiTransportErrorText "gemini-1.5-pro" "SECRET-KEY-BBBB" "connection refused" := by
  constructor
  · refine ⟨("Post \"https://generativelanguage.googleapis.com/v1/models/").data
        ++ modelName.data ++ (":generateContent?key=").data,
      ("\": " ++ innerErr).data, ?_⟩
    simp [geminiTransportErrorText, urlErrorText, geminiAPIURL]
  · decide

/-- Claim C8: the Gemini request carries a single user-role content
block whose text is the system prompt, one blank line, then the
formatted user prompt; Anthropic keeps the system prompt in the
dedicated request field and OpenAI in a separate system-role message. -/
theorem request_shapes_by_provider (modelName : String) (d : GitDiffInfo) :
    (geminiBuildRequest d).contents
      = [{ role := "user"
           parts := [{ text := d.systemPrompt ++ "\n\n" ++ formatUserPrompt d }] }] ∧
    (anthropicBuildRequest modelName d).system = d.systemPrompt ∧
    (anthropicBuildRequest modelName d).messages
      = [{ role := "user", content := formatUserPrompt d }] ∧
    (openaiBuildRequest modelName d).messages
      = [{ role := "system", content := d.systemPrompt },
         { role := "user", content := formatUserPrompt d }] :=
  ⟨rfl, rfl, rfl, rfl⟩

/-- Claim C9: storing a key is overwrite-idempotent.  Starting from a
store that satisfies the one-entry-per-pair invariant, two successive
stores for the same (service, account) pair leave exactly one entry
for that pair (delete-then-add, never append), its value is the
second key, and a subsequent keychain lookup returns that key. -/
theorem store_key_overwrites (store : List CredEntry)
    (service account k1 k2 : String)
    (h : entryCount service account store ≤ 1) :
    entryCount service account
      (macStoreInKeychain service account k2
        (macStoreInKeychain service account k1 store)) = 1 ∧
    macKeychainLookup service account
      (macStoreInKeychain service account k2
        (macStoreInKeychain service account k1 store)) = some k2 := by
  have hmatch := entryMatches_self service account
  have hfilter1 :
      (macStoreInKeychain service account k1 store).filter
        (entryMatches service account)
        = [⟨service, account, k1⟩] := by
    rw [macStoreInKeychain, List.filter_append,
      filter_eraseP_of_count_le_one _ _ h]
    simp [hmatch k1]
  have hcount1 : entryCount service account (macStoreInKeychain service account k1 store) ≤ 1 := by
    rw [entryCount, hfilter1]
    simp
  have hfilter2 :
      (macStoreInKeychain service account k2
          (macStoreInKeychain service account k1 store)).filter
        (entryMatches service account)
        = [⟨service, account, k2⟩] := by
    rw [macStoreInKeychain, List.filter_append,
      filter_eraseP_of_count_le_one _ _ hcount1]
    simp [hmatch k2]
  refine ⟨by rw [entryCount, hfilter2]; rfl, ?_⟩
  rw [macKeychainLookup, find?_of_filter_singleton _ _ _ hfilter2]
  rfl

/-- Claim C9 witness: the double store at a concrete store holding one
prior entry for the Anthropic account. -/
theorem store_key_overwrites_witness :
    entryCount "ai-commit-msg" "anthropic-api-key"
      (macStoreInKeychain "ai-commit-msg" "anthropic-api-key" "key-two"
        (macStoreInKeychain "ai-commit-msg" "anthropic-api-key" "key-one"
          [⟨"ai-commit-msg", "anthropic-api-key", "old"⟩])) = 1 ∧
    macKeychainLookup "ai-commit-msg" "anthropic-api-key"
      (macStoreInKeychain "ai-commit-msg" "anthropic-api-key" "key-two"
        (macStoreInKeychain "ai-commit-msg" "anthropic-api-key" "key-one"
          [⟨"ai-commit-msg", "anthropic-api-key", "old"⟩])) = some "key-two" :=
  store_key_overwrites [⟨"ai-commit-msg", "anthropic-api-key", "old"⟩]
    "ai-commit-msg" "anthropic-api-key" "key-one" "key-two" (by decide)

end AICommitMsg
